import Mathlib

/-!
# GeoBlinko — verification of the geolocation provider abstraction

Shallow embedding of the geolocation subsystem of the GeoBlinko repository:

* `MapService`         — `src/app/src/services/MapService.ts`
  (China bounding-box tests and the WGS84→GCJ02 coordinate transform,
  modelled over the real numbers; the transcendental parts are therefore
  `noncomputable`, every branch decision is still fully specified).
* `LocationService`    — `src/server/lib/locationService.ts`
  (provider selection, the three provider clients reduced to their pure
  response-processing cores, and the IP-location fallback).
* `Location`           — `src/server/lib/location.ts`
  (the second Amap client, whose operations wrap their bodies in a
  catch-all that rethrows generic error messages).
* `MockAmap`           — the mock location service
  (fixture database, substring search, distance-sorted nearby search).

HTTP calls are modelled by taking the parsed response (or the failure) of
the one outbound call of each operation as an explicit argument; thrown
exceptions are modelled with `Except`.
-/

set_option maxRecDepth 4000

namespace GeoBlinko

/-! ## `src/app/src/services/MapService.ts` -/

namespace MapService

/-- Constant `PI` as written in `wgs84ToGcj02` (the source uses its own
literal, not `Math.PI`). -/
def PI : ℝ := 3.14159265358979324

/-- Ellipsoid semi-major axis constant `A` of `wgs84ToGcj02`. -/
def A : ℝ := 6378245.0

/-- Eccentricity-squared constant `EE` of `wgs84ToGcj02`. -/
def EE : ℝ := 0.00669342162296594323

/-- Source `isInsideChina` (MapService.ts, lines 14–16): inclusive bounding box. -/
def isInsideChina (lat lon : ℝ) : Prop :=
  72.004 ≤ lon ∧ lon ≤ 137.8347 ∧ 0.8293 ≤ lat ∧ lat ≤ 55.8271

/-- The local `outOfChina` lambda inside `wgs84ToGcj02` (line 25):
strict comparisons, longitude tested first. -/
def outOfChina (lat lng : ℝ) : Prop :=
  lng < 72.004 ∨ lng > 137.8347 ∨ lat < 0.8293 ∨ lat > 55.8271

noncomputable instance (lat lng : ℝ) : Decidable (outOfChina lat lng) :=
  Classical.dec _

/-- Source `transformLat` helper of `wgs84ToGcj02` (lines 29–35). -/
noncomputable def transformLat (x y : ℝ) : ℝ :=
  -100.0 + 2.0 * x + 3.0 * y + 0.2 * y * y + 0.1 * x * y + 0.2 * Real.sqrt (abs x)
    + (20.0 * Real.sin (6.0 * x * PI) + 20.0 * Real.sin (2.0 * x * PI)) * 2.0 / 3.0
    + (20.0 * Real.sin (y * PI) + 40.0 * Real.sin (y / 3.0 * PI)) * 2.0 / 3.0
    + (160.0 * Real.sin (y / 12.0 * PI) + 320 * Real.sin (y * PI / 30.0)) * 2.0 / 3.0

/-- Source `transformLng` helper of `wgs84ToGcj02` (lines 37–43). -/
noncomputable def transformLng (x y : ℝ) : ℝ :=
  300.0 + x + 2.0 * y + 0.1 * x * x + 0.1 * x * y + 0.1 * Real.sqrt (abs x)
    + (20.0 * Real.sin (6.0 * x * PI) + 20.0 * Real.sin (2.0 * x * PI)) * 2.0 / 3.0
    + (20.0 * Real.sin (x * PI) + 40.0 * Real.sin (x / 3.0 * PI)) * 2.0 / 3.0
    + (150.0 * Real.sin (x / 12.0 * PI) + 300.0 * Real.sin (x / 30.0 * PI)) * 2.0 / 3.0

/-- The correction branch of `wgs84ToGcj02` (lines 45–57): the code run
when the point is not `outOfChina`. -/
noncomputable def gcj02Transform (lat lon : ℝ) : ℝ × ℝ :=
  let dLat0 := transformLat (lon - 105.0) (lat - 35.0)
  let dLng0 := transformLng (lon - 105.0) (lat - 35.0)
  let radLat := lat / 180.0 * PI
  let magic := 1 - EE * Real.sin radLat * Real.sin radLat
  let sqrtMagic := Real.sqrt magic
  let dLat := dLat0 * 180.0 / (A * (1 - EE) / (magic * sqrtMagic) * PI)
  let dLng := dLng0 * 180.0 / (A / sqrtMagic * Real.cos radLat * PI)
  (lat + dLat, lon + dLng)

/-- Source `wgs84ToGcj02` (MapService.ts, lines 21–58): identity outside the
bounding box, the published empirical correction inside.  The result pair
is (latitude, longitude). -/
noncomputable def wgs84ToGcj02 (lat lon : ℝ) : ℝ × ℝ :=
  if outOfChina lat lon then (lat, lon) else gcj02Transform lat lon

end MapService

/-! ## `src/server/lib/locationService.ts` -/

namespace LocationService

/-- Source `MapProvider` enum (locationService.ts, lines 4–9). -/
inductive MapProvider where
  | AUTO
  | AMAP
  | GOOGLE
  | OPENSTREETMAP
deriving DecidableEq

/-- Source `MapConfig` (lines 14–19).  A key field is `none` when the
corresponding environment variable is absent. -/
structure MapConfig where
  provider : MapProvider
  amapApiKey : Option String
  googleApiKey : Option String

/-- Source `LocationInfo` (lines 24–38).  Coordinates are modelled as rationals
(the values obtained from the parsed JSON numbers). -/
structure LocationInfo where
  id : String
  name : String
  address : String
  formattedAddress : String
  latitude : ℚ
  longitude : ℚ
  distance : Option String
  type : Option String
  poiName : Option String
  province : Option String
  city : Option String
  district : Option String
  street : Option String
deriving DecidableEq

/-- Source `ReverseGeocodeResult` (lines 43–52).  The `city` field is an
`Option` because the JS expression `Array.isArray(c) ? c[0] : (c || '')`
produces `undefined` when `c` is an empty array. -/
structure ReverseGeocodeResult where
  address : String
  formattedAddress : String
  province : String
  city : Option String
  district : Option String
  street : String
  poiName : Option String
  distance : Option String
deriving DecidableEq

/-- Source `isInsideChina` (locationService.ts, lines 57–61): inclusive
bounding box, longitude tested first. -/
def isInsideChina (lat lon : ℚ) : Bool :=
  decide (72.004 ≤ lon) && decide (lon ≤ 137.8347) &&
    decide (0.8293 ≤ lat) && decide (lat ≤ 55.8271)

/-- JS truthiness of an optional string config key: the constructor
guards `if (this.config.amapApiKey)`, which is false for an absent key
and for the empty string. -/
def keyTruthy : Option String → Bool
  | none => false
  | some s => decide (s ≠ "")

/-- The client-relevant state built by the `LocationService` constructor
(lines 475–485): the provider mode, and whether the Amap / Google
clients were constructed.  The OpenStreetMap client is always
constructed. -/
structure ServiceState where
  provider : MapProvider
  amapClient : Bool
  googleClient : Bool
deriving DecidableEq

/-- Source `LocationService` constructor (lines 475–485): a provider client is
constructed exactly when its API key is truthy. -/
def mkService (config : MapConfig) : ServiceState :=
  { provider := config.provider
    amapClient := keyTruthy config.amapApiKey
    googleClient := keyTruthy config.googleApiKey }

/-- The three concrete provider clients a selection can return. -/
inductive ProviderClient where
  | amap
  | google
  | osm
deriving DecidableEq

/-- Source `LocationService.selectProvider` (lines 490–525), with the optional
`latitude`/`longitude` arguments made explicit.  The early `return`s of
the AUTO block are modelled with an intermediate `Option`. -/
def selectProvider (s : ServiceState) (latitude longitude : Option ℚ) :
    ProviderClient :=
  if s.provider == MapProvider.AMAP && s.amapClient then ProviderClient.amap
  else if s.provider == MapProvider.GOOGLE && s.googleClient then ProviderClient.google
  else if s.provider == MapProvider.OPENSTREETMAP then ProviderClient.osm
  else
    let autoPick : Option ProviderClient :=
      match latitude, longitude with
      | some lat, some lon =>
        if isInsideChina lat lon && s.amapClient then some ProviderClient.amap
        else if s.googleClient then some ProviderClient.google
        else none
      | _, _ => none
    match autoPick with
    | some c => c
    | none =>
      if s.googleClient then ProviderClient.google
      else if s.amapClient then ProviderClient.amap
      else ProviderClient.osm

/-- Modelled from the spec (§4.3 ProviderSelector, and claim C1): the
three-step precedence, evaluated in order, first match wins.
Step 1: a forced provider mode whose client was constructed yields that
provider (the Open client is always constructed). -/
def specForced (s : ServiceState) : Option ProviderClient :=
  match s.provider with
  | MapProvider.AMAP => if s.amapClient then some ProviderClient.amap else none
  | MapProvider.GOOGLE => if s.googleClient then some ProviderClient.google else none
  | MapProvider.OPENSTREETMAP => some ProviderClient.osm
  | MapProvider.AUTO => none

/-- Modelled from the spec: step 2 — when coordinates are supplied, the
China client if `isInsideChina` holds and that client exists, else the
Global client if it exists. -/
def specCoordinate (s : ServiceState) (latitude longitude : Option ℚ) :
    Option ProviderClient :=
  match latitude, longitude with
  | some lat, some lon =>
    if isInsideChina lat lon && s.amapClient then some ProviderClient.amap
    else if s.googleClient then some ProviderClient.google
    else none
  | _, _ => none

/-- Modelled from the spec: step 3 — prefer Global if available, else
China if available, else Open. -/
def specFallback (s : ServiceState) : ProviderClient :=
  if s.googleClient then ProviderClient.google
  else if s.amapClient then ProviderClient.amap
  else ProviderClient.osm

/-- Modelled from the spec: the full three-step precedence. -/
def selectSpec (s : ServiceState) (latitude longitude : Option ℚ) :
    ProviderClient :=
  match specForced s with
  | some c => c
  | none =>
    match specCoordinate s latitude longitude with
    | some c => c
    | none => specFallback s

/-- A POI record of an Amap search response, with the fields the mapping
code reads.  The wire field `location` is the string `"lon,lat"`; it is
modelled already parsed as the pair (longitude, latitude).  The wire
field `distance` is a numeric string; it is modelled as the parsed
number. -/
structure AmapPoi where
  id : String
  name : String
  address : Option String
  pname : String
  cityname : String
  adname : String
  location : ℚ × ℚ
  distance : Option ℕ
  type : String
deriving DecidableEq

/-- The parsed body of an Amap `/v5/place/text` or `/v5/place/around`
response: `status`, `info`, and the possibly-absent `pois` array. -/
structure AmapSearchResponse where
  status : String
  info : String
  pois : Option (List AmapPoi)
deriving DecidableEq

/-- The per-POI mapping shared verbatim by `AmapClient.searchLocation`
(lines 112–126) and `AmapClient.searchNearby` (lines 155–169). -/
def amapPoiToLocationInfo (poi : AmapPoi) : LocationInfo :=
  { id := poi.id
    name := poi.name
    address := poi.address.getD ""
    formattedAddress := poi.pname ++ poi.cityname ++ poi.adname ++ poi.address.getD ""
    latitude := poi.location.2
    longitude := poi.location.1
    distance := poi.distance.map (fun d => toString d ++ " 米")
    type := some poi.type
    poiName := some poi.name
    province := some poi.pname
    city := some poi.cityname
    district := some poi.adname
    street := poi.address }

/-- Source `AmapClient.searchLocation` (locationService.ts, lines 90–127),
applied to the parsed response of its one HTTP call.  A thrown
`Error` is an `Except.error` carrying the message. -/
def AmapClient.searchLocation (resp : AmapSearchResponse) :
    Except String (List LocationInfo) :=
  if resp.status ≠ "1" then
    Except.error ("Amap API error: " ++ resp.info)
  else
    Except.ok ((resp.pois.getD []).map amapPoiToLocationInfo)

/-- Source `AmapClient.searchNearby` (locationService.ts, lines 129–170):
identical response processing to `searchLocation`. -/
def AmapClient.searchNearby (resp : AmapSearchResponse) :
    Except String (List LocationInfo) :=
  if resp.status ≠ "1" then
    Except.error ("Amap API error: " ++ resp.info)
  else
    Except.ok ((resp.pois.getD []).map amapPoiToLocationInfo)

/-- The `city` field of an Amap regeo `addressComponent`: a string,
an array, or absent (`Array.isArray` distinguishes the cases). -/
inductive AmapCityField where
  | str (s : String)
  | arr (l : List String)
  | absent
deriving DecidableEq

/-- Source `addressComponent.streetNumber` of an Amap regeo response. -/
structure AmapStreetNumber where
  name : Option String
deriving DecidableEq

/-- Source `addressComponent` of an Amap regeo response. -/
structure AmapAddressComponent where
  province : Option String
  city : AmapCityField
  district : Option String
  township : Option String
  streetNumber : Option AmapStreetNumber
deriving DecidableEq

/-- An entry of the `aois` array of an Amap regeo response. -/
structure AmapAoi where
  name : Option String
deriving DecidableEq

/-- An entry of the `pois` array of an Amap regeo response; `distance`
is a numeric wire string, modelled parsed. -/
structure AmapRegeoPoi where
  name : Option String
  distance : Option ℕ
deriving DecidableEq

/-- The `regeocode` object of an Amap regeo response. -/
structure AmapRegeocode where
  addressComponent : AmapAddressComponent
  formatted_address : String
  aois : Option (List AmapAoi)
  pois : Option (List AmapRegeoPoi)
deriving DecidableEq

/-- The parsed body of an Amap `/v3/geocode/regeo` response. -/
structure AmapRegeoResponse where
  status : String
  info : String
  regeocode : Option AmapRegeocode
deriving DecidableEq

/-- Source `streetNumber?.name || ''`. -/
def streetNumberName (ac : AmapAddressComponent) : String :=
  ((ac.streetNumber.bind AmapStreetNumber.name).getD "")

/-- Source `Array.isArray(c) ? c[0] : (c || '')` (locationService.ts line 223):
`undefined` (here `none`) when the array is empty. -/
def cityValue : AmapCityField → Option String
  | AmapCityField.str s => some s
  | AmapCityField.arr l => l.head?
  | AmapCityField.absent => some ""

/-- Source `AmapClient.reverseGeocode` (locationService.ts, lines 172–229). -/
def AmapClient.reverseGeocode (resp : AmapRegeoResponse) :
    Except String ReverseGeocodeResult :=
  if resp.status ≠ "1" then
    Except.error ("Amap API error: " ++ resp.info)
  else
    match resp.regeocode with
    | none => Except.error "No reverse geocode result"
    | some regeocode =>
      let ac := regeocode.addressComponent
      let aois := regeocode.aois.getD []
      let pois := regeocode.pois.getD []
      let addressAndPoi : String × Option String :=
        match aois with
        | aoi :: _ =>
          (ac.district.getD "" ++ aoi.name.getD "" ++ ac.township.getD ""
            ++ streetNumberName ac, aoi.name)
        | [] =>
          match pois with
          | poi :: _ =>
            (ac.district.getD "" ++ poi.name.getD "" ++ streetNumberName ac, poi.name)
          | [] => (ac.district.getD "" ++ streetNumberName ac, none)
      Except.ok
        { address := addressAndPoi.1
          formattedAddress := regeocode.formatted_address
          province := ac.province.getD ""
          city := cityValue ac.city
          district := some (ac.district.getD "")
          street := ac.township.getD ""
          poiName := addressAndPoi.2
          distance :=
            match pois with
            | poi :: _ => poi.distance.map (fun d => toString d ++ " 米")
            | [] => none }

/-- The parsed body of a Nominatim `/reverse` response, with the fields
`searchNearby` reads; `lat`/`lon` are numeric wire strings, modelled
parsed. -/
structure NominatimPlace where
  display_name : String
  lat : ℚ
  lon : ℚ
deriving DecidableEq

/-- Source `OpenStreetMapClient.searchNearby` (locationService.ts, lines
393–430): reverse-geocodes the point and returns a single-element list.
`latitude`/`longitude` only feed the HTTP request; `keywords`, `radius`
and `pageSize` are accepted but unused; `now` models `Date.now()` used
in the generated id; `place` is the parsed response body. -/
def OpenStreetMapClient.searchNearby (latitude longitude : ℚ)
    (keywords : String) (radius pageSize : ℕ) (now : ℕ) (place : NominatimPlace) :
    List LocationInfo :=
  [{ id := "osm_" ++ toString now
     name := (place.display_name.splitOn ",").headD ""
     address := place.display_name
     formattedAddress := place.display_name
     latitude := place.lat
     longitude := place.lon
     distance := some "0 米"
     type := some "current"
     poiName := some ((place.display_name.splitOn ",").headD "")
     province := none
     city := none
     district := none
     street := none }]

/-- The parsed body of the `https://ipapi.co/json/` response; every
field may be absent. -/
structure IPApiData where
  city : Option String
  region : Option String
  country_name : Option String
  latitude : Option ℚ
  longitude : Option ℚ
deriving DecidableEq

/-- The ways the IP-geolocation HTTP call can fail: timeout, transport
failure, or a malformed body that makes the `try` block throw. -/
inductive IPFailure where
  | timeout
  | transport
  | malformed
deriving DecidableEq

/-- Source `LocationService.getIPLocation` (lines 558–586), applied to the
outcome of its one HTTP call.  The `try`/`catch` makes it total: any
failure lands in the catch branch, which returns the zeroed default.
JS `x || 0` / `x || ''` defaults are `Option.getD`.  (The success branch
also calls `selectProvider` and discards the result; being pure, that
call is dropped here.) -/
def getIPLocation (o : Except IPFailure IPApiData) : LocationInfo :=
  match o with
  | Except.ok data =>
    { id := "ip_location"
      name := data.city.getD "Unknown"
      address := data.city.getD ""
      formattedAddress := data.city.getD "" ++ ", " ++ data.country_name.getD ""
      latitude := data.latitude.getD 0
      longitude := data.longitude.getD 0
      distance := none
      type := none
      poiName := none
      province := some (data.region.getD "")
      city := some (data.city.getD "")
      district := none
      street := none }
  | Except.error _ =>
    { id := "default_location"
      name := "Default"
      address := ""
      formattedAddress := ""
      latitude := 0
      longitude := 0
      distance := none
      type := none
      poiName := none
      province := none
      city := none
      district := none
      street := none }

end LocationService

/-! ## `src/server/lib/location.ts`

The second `AmapClient`.  Its request building and per-POI mapping are
the same code as in `locationService.ts` (the wire structures and
`amapPoiToLocationInfo` are reused), but every operation wraps its body
in `try { ... } catch { throw new Error('<generic message>') }`, so the
error that escapes an operation is always the generic one. -/

namespace Location

open LocationService in
/-- Source `AmapClient.searchLocation` (location.ts, lines 85–132): the body
(identical response handling to the other client) runs inside a
`try`/`catch` that rethrows `'Failed to search location'`. -/
def AmapClient.searchLocation (resp : AmapSearchResponse) :
    Except String (List LocationInfo) :=
  let body : Except String (List LocationInfo) :=
    if resp.status ≠ "1" then
      Except.error ("Amap API error: " ++ resp.info)
    else
      Except.ok ((resp.pois.getD []).map amapPoiToLocationInfo)
  match body with
  | Except.error _ => Except.error "Failed to search location"
  | Except.ok v => Except.ok v

open LocationService in
/-- Source `AmapClient.searchNearby` (location.ts, lines 137–186): rethrows
`'Failed to search nearby locations'`. -/
def AmapClient.searchNearby (resp : AmapSearchResponse) :
    Except String (List LocationInfo) :=
  let body : Except String (List LocationInfo) :=
    if resp.status ≠ "1" then
      Except.error ("Amap API error: " ++ resp.info)
    else
      Except.ok ((resp.pois.getD []).map amapPoiToLocationInfo)
  match body with
  | Except.error _ => Except.error "Failed to search nearby locations"
  | Except.ok v => Except.ok v

open LocationService in
/-- The inner body of `AmapClient.reverseGeocode` (location.ts, lines
199–256).  Differences from the `locationService.ts` variant: when the
nearest regeo POI has a distance, `poiName` is annotated with
`` 附近 ${d} 米``; JS string concatenation renders an absent `poi.name`
as `"undefined"` there; the array `city` case applies `|| ''`. -/
def reverseGeocodeBody (resp : AmapRegeoResponse) :
    Except String ReverseGeocodeResult :=
  if resp.status ≠ "1" then
    Except.error ("Amap API error: " ++ resp.info)
  else
    match resp.regeocode with
    | none => Except.error "No reverse geocode result"
    | some regeocode =>
      let ac := regeocode.addressComponent
      let aois := regeocode.aois.getD []
      let pois := regeocode.pois.getD []
      let addressAndPoi : String × Option String :=
        match aois with
        | aoi :: _ =>
          (ac.district.getD "" ++ aoi.name.getD "" ++ ac.township.getD ""
            ++ streetNumberName ac, aoi.name)
        | [] =>
          match pois with
          | poi :: _ =>
            (ac.district.getD "" ++ poi.name.getD "" ++ streetNumberName ac,
              match poi.distance with
              | some d => some ((poi.name.getD "undefined") ++ " 附近 " ++ toString d ++ " 米")
              | none => poi.name)
          | [] => (ac.district.getD "" ++ streetNumberName ac, none)
      Except.ok
        { address := addressAndPoi.1
          formattedAddress := regeocode.formatted_address
          province := ac.province.getD ""
          city := some ((cityValue ac.city).getD "")
          district := some (ac.district.getD "")
          street := ac.township.getD ""
          poiName := addressAndPoi.2
          distance :=
            match pois with
            | poi :: _ => poi.distance.map (fun d => toString d ++ " 米")
            | [] => none }

open LocationService in
/-- Source `AmapClient.reverseGeocode` (location.ts, lines 191–261): the body
runs inside a `try`/`catch` that rethrows `'Failed to reverse geocode'`. -/
def AmapClient.reverseGeocode (resp : AmapRegeoResponse) :
    Except String ReverseGeocodeResult :=
  match reverseGeocodeBody resp with
  | Except.error _ => Except.error "Failed to reverse geocode"
  | Except.ok v => Except.ok v

end Location

/-! ## `src/unnamed/part_006` — the mock location service -/

namespace MockAmap

/-- An entry of the `MOCK_POIS` fixture array. -/
structure MockPoi where
  id : String
  name : String
  address : String
  formattedAddress : String
  latitude : ℚ
  longitude : ℚ
deriving DecidableEq

/-- Source `MOCK_POIS` (part_006, lines 36–157). -/
def MOCK_POIS : List MockPoi :=
  [⟨"B000A7BD6J", "天安门广场", "东城区西长安街", "北京市东城区西长安街天安门广场", 39.908823, 116.397470⟩,
   ⟨"B000A7S3U4", "故宫博物院", "东城区景山前街4号", "北京市东城区景山前街4号故宫博物院", 39.916345, 116.397155⟩,
   ⟨"B000A7TZ8Q", "北京首都国际机场", "顺义区首都机场路", "北京市顺义区首都机场路北京首都国际机场", 40.079861, 116.603142⟩,
   ⟨"B000A7UTA5", "颐和园", "海淀区新建宫门路19号", "北京市海淀区新建宫门路19号颐和园", 39.999911, 116.275642⟩,
   ⟨"B000A7V0X8", "天坛公园", "东城区天坛东路甲1号", "北京市东城区天坛东路甲1号天坛公园", 39.882231, 116.406617⟩,
   ⟨"B000A7V5G3", "北京大学", "海淀区颐和园路5号", "北京市海淀区颐和园路5号北京大学", 39.992653, 116.310502⟩,
   ⟨"B000A7VBQ0", "清华大学", "海淀区双清路30号", "北京市海淀区双清路30号清华大学", 39.999935, 116.326403⟩,
   ⟨"B000A7W1F5", "国家大剧院", "西城区西长安街2号", "北京市西城区西长安街2号国家大剧院", 39.903841, 116.392822⟩,
   ⟨"B000A7W4K7", "鸟巢", "朝阳区国家体育场南路1号", "北京市朝阳区国家体育场南路1号鸟巢", 39.992958, 116.388494⟩,
   ⟨"B000A7W8H2", "水立方", "朝阳区天辰东路", "北京市朝阳区天辰东路口水立方", 39.993039, 116.380782⟩,
   ⟨"B000A7XC4", "三里屯", "朝阳区三里屯路", "北京市朝阳区三里屯路三里屯", 39.936475, 116.455527⟩,
   ⟨"B000A7XJ3", "王府井", "东城区王府井大街", "北京市东城区王府井大街王府井", 39.913889, 116.410371⟩,
   ⟨"B000A7YQ7", "中关村", "海淀区中关村大街", "北京市海淀区中关村大街中关村", 39.981025, 116.315863⟩,
   ⟨"B000A7ZB5", "CBD中央商务区", "朝阳区建外大街", "北京市朝阳区建外大街CBD中央商务区", 39.908529, 116.476767⟩,
   ⟨"B000A8A1K4", "西单", "西城区西单北大街", "北京市西城区西单北大街西单", 39.909709, 116.365384⟩]

/-- JS `haystack.includes(needle)`: substring containment on the
character sequence. -/
def jsIncludes (s sub : String) : Bool :=
  (List.range (s.toList.length + 1)).any
    (fun i => (s.toList.drop i).take sub.toList.length == sub.toList)

/-- Source `toRad` (part_006, lines 341–343), over the reals with the real
`Math.PI`. -/
noncomputable def toRad (degrees : ℝ) : ℝ :=
  degrees * (Real.pi / 180)

/-- JS `Math.atan2(y, x)`. -/
noncomputable def atan2 (y x : ℝ) : ℝ :=
  if 0 < x then Real.arctan (y / x)
  else if x < 0 then
    (if 0 ≤ y then Real.arctan (y / x) + Real.pi else Real.arctan (y / x) - Real.pi)
  else
    (if 0 < y then Real.pi / 2 else if y < 0 then -(Real.pi / 2) else 0)

/-- Source `calculateDistance` (part_006, lines 324–336): Haversine distance in
meters.  The source returns the string `` `${Math.round(distance)} 米` ``
and the `searchNearby` comparator reads the number back with
`parseFloat`; the model keeps the rounded integer value itself
(JS `Math.round` is `⌊x + 1/2⌋`, Mathlib's `round`). -/
noncomputable def calculateDistance (lat1 lon1 lat2 lon2 : ℝ) : ℤ :=
  let earthR : ℝ := 6371000
  let dLat := toRad (lat2 - lat1)
  let dLon := toRad (lon2 - lon1)
  let a := Real.sin (dLat / 2) * Real.sin (dLat / 2)
    + Real.cos (toRad lat1) * Real.cos (toRad lat2)
      * Real.sin (dLon / 2) * Real.sin (dLon / 2)
  let c := 2 * atan2 (Real.sqrt a) (Real.sqrt (1 - a))
  round (earthR * c)

/-- A mock result: a fixture entry together with its computed
`distance` (see `calculateDistance` for the string identification). -/
structure MockLocationInfo where
  id : String
  name : String
  address : String
  formattedAddress : String
  latitude : ℚ
  longitude : ℚ
  distance : ℤ

/-- The `{...poi, distance: calculateDistance(lat, lon, ...)}` spread
used by `searchLocation` and `searchNearby`. -/
noncomputable def withDistance (lat lon : ℝ) (poi : MockPoi) : MockLocationInfo :=
  { id := poi.id
    name := poi.name
    address := poi.address
    formattedAddress := poi.formattedAddress
    latitude := poi.latitude
    longitude := poi.longitude
    distance := calculateDistance lat lon (poi.latitude : ℝ) (poi.longitude : ℝ) }

/-- Source `MockAmapClient.searchLocation` (part_006, lines 170–197): substring
filter over name/address/formattedAddress, fallback to the first five
fixtures when nothing matches, then `slice(0, pageSize)` and the
distance decoration (computed from the fixed Tiananmen reference
point). -/
noncomputable def MockAmapClient.searchLocation (keyword : String)
    (pageSize : ℕ) : List MockLocationInfo :=
  let filtered := MOCK_POIS.filter (fun poi =>
    jsIncludes poi.name keyword || jsIncludes poi.address keyword ||
      jsIncludes poi.formattedAddress keyword)
  let results := if 0 < filtered.length then filtered else MOCK_POIS.take 5
  (results.take pageSize).map (withDistance 39.908823 116.397470)

/-- Source `MockAmapClient.searchNearby` (part_006, lines 202–226): decorate
every fixture with its distance from the query point, sort ascending by
that distance (the JS comparator subtracts the parsed distances; JS
sort is stable, as is `mergeSort`), then `slice(0, pageSize)`. -/
noncomputable def MockAmapClient.searchNearby (latitude longitude : ℝ)
    (pageSize : ℕ) : List MockLocationInfo :=
  (((MOCK_POIS.map (withDistance latitude longitude)).mergeSort
      (fun a b => a.distance ≤ b.distance)).take pageSize)

end MockAmap

/-! ## Theorems -/

section SelectionLemmas

open LocationService

/-- Helper: the selection function agrees with the three-step spec
precedence on every state. -/
theorem select_eq_spec (s : ServiceState) (a b : Option ℚ) :
    selectProvider s a b = selectSpec s a b := by
  obtain ⟨p, ha, hg⟩ := s
  rcases a with _ | lat <;> rcases b with _ | lon <;>
    cases p <;> cases ha <;> cases hg <;>
      simp [selectProvider, selectSpec, specForced, specCoordinate, specFallback]

/-- Helper: a provider client is only ever returned when it was
constructed. -/
theorem select_client_constructed (s : ServiceState) (a b : Option ℚ) :
    (selectProvider s a b = ProviderClient.amap → s.amapClient = true) ∧
    (selectProvider s a b = ProviderClient.google → s.googleClient = true) := by
  obtain ⟨p, ha, hg⟩ := s
  rcases a with _ | lat <;> rcases b with _ | lon <;>
    cases p <;> cases ha <;> cases hg <;>
      simp [selectProvider] <;>
      (try (cases hIn : isInsideChina lat lon <;> simp [hIn]))

end SelectionLemmas

/-- C1: for every resolved configuration and every optional coordinate
pair, `LocationService.selectProvider` returns the provider given by the
spec's three-step precedence (forced-and-constructed, then the
coordinate rule, then Global/China/Open fallback), and a provider whose
client was not constructed (key absent) is never the result. -/
theorem selectProvider_follows_spec_precedence :
    ∀ (config : LocationService.MapConfig) (latitude longitude : Option ℚ),
      LocationService.selectProvider (LocationService.mkService config) latitude longitude
          = LocationService.selectSpec (LocationService.mkService config) latitude longitude ∧
      (LocationService.selectProvider (LocationService.mkService config) latitude longitude
            = LocationService.ProviderClient.amap →
          (LocationService.mkService config).amapClient = true) ∧
      (LocationService.selectProvider (LocationService.mkService config) latitude longitude
            = LocationService.ProviderClient.google →
          (LocationService.mkService config).googleClient = true) := by
  intro config a b
  exact ⟨select_eq_spec _ a b, (select_client_constructed _ a b).1,
    (select_client_constructed _ a b).2⟩

/-- Witness for C1 at a concrete configuration: provider forced to Amap
but without an Amap key. -/
theorem selectProvider_follows_spec_precedence_witness :
    LocationService.selectProvider
        (LocationService.mkService
          ⟨LocationService.MapProvider.AMAP, none, some "gkey"⟩) none none
        = LocationService.selectSpec
          (LocationService.mkService
            ⟨LocationService.MapProvider.AMAP, none, some "gkey"⟩) none none ∧
      (LocationService.selectProvider
            (LocationService.mkService
              ⟨LocationService.MapProvider.AMAP, none, some "gkey"⟩) none none
            = LocationService.ProviderClient.amap →
          (LocationService.mkService
            ⟨LocationService.MapProvider.AMAP, none, some "gkey"⟩).amapClient = true) ∧
      (LocationService.selectProvider
            (LocationService.mkService
              ⟨LocationService.MapProvider.AMAP, none, some "gkey"⟩) none none
            = LocationService.ProviderClient.google →
          (LocationService.mkService
            ⟨LocationService.MapProvider.AMAP, none, some "gkey"⟩).googleClient = true) :=
  selectProvider_follows_spec_precedence
    ⟨LocationService.MapProvider.AMAP, none, some "gkey"⟩ none none

/-- C4: `selectProvider` is total — it always returns some provider
client — and when no API key is set at all (no client besides the
always-constructed OpenStreetMap one) it returns the Open client, so a
no-eligible-provider error branch would be unreachable. -/
theorem selectProvider_total_open_fallback :
    ∀ (config : LocationService.MapConfig) (latitude longitude : Option ℚ),
      (∃ c, LocationService.selectProvider (LocationService.mkService config)
          latitude longitude = c) ∧
      (LocationService.keyTruthy config.amapApiKey = false →
        LocationService.keyTruthy config.googleApiKey = false →
        LocationService.selectProvider (LocationService.mkService config) latitude longitude
          = LocationService.ProviderClient.osm) := by
  intro config a b
  refine ⟨⟨_, rfl⟩, fun hA hG => ?_⟩
  rcases config with ⟨p, ka, kg⟩
  simp only [LocationService.mkService] at hA hG ⊢
  rcases a with _ | lat <;> rcases b with _ | lon <;> cases p <;>
    simp [LocationService.selectProvider, hA, hG]

/-- Witness for C4: the all-defaults configuration with no keys selects
the Open client. -/
theorem selectProvider_total_open_fallback_witness :
    LocationService.keyTruthy none = false ∧
      LocationService.selectProvider
        (LocationService.mkService ⟨LocationService.MapProvider.AUTO, none, none⟩)
        none none = LocationService.ProviderClient.osm :=
  ⟨by decide,
    (selectProvider_total_open_fallback
      ⟨LocationService.MapProvider.AUTO, none, none⟩ none none).2 (by decide) (by decide)⟩

/-- C2: `getIPLocation` never throws — it is a total function of the
outcome of its HTTP call — and on any failure outcome the returned
`LocationInfo` has latitude 0 and longitude 0. -/
theorem getIPLocation_never_throws :
    ∀ (o : Except LocationService.IPFailure LocationService.IPApiData),
      ((LocationService.getIPLocation o).latitude = 0 ∧
        (LocationService.getIPLocation o).longitude = 0) ∨
      ∃ d, o = Except.ok d := by
  intro o
  cases o with
  | error e => exact Or.inl ⟨rfl, rfl⟩
  | ok d => exact Or.inr ⟨d, rfl⟩

/-- C5: for every input coordinate pair and every keywords/pageSize, a
successful Open-provider `searchNearby` returns exactly one element and
its `type` field is `"current"`. -/
theorem osm_searchNearby_single_current_result :
    ∀ (latitude longitude : ℚ) (keywords : String) (radius pageSize now : ℕ)
      (place : LocationService.NominatimPlace),
      (LocationService.OpenStreetMapClient.searchNearby latitude longitude keywords
          radius pageSize now place).length = 1 ∧
      (LocationService.OpenStreetMapClient.searchNearby latitude longitude keywords
          radius pageSize now place).map LocationService.LocationInfo.type
        = [some "current"] := by
  intro latitude longitude keywords radius pageSize now place
  exact ⟨rfl, rfl⟩

/-- Counterexample for C6: the claim says the thrown error carries the
response's `info` message, but the `location.ts` Amap client (cited by
the claim) catches the inner error and rethrows the constant message
`'Failed to search location'`, which is not the info-carrying message. -/
theorem location_searchLocation_error_drops_info :
    Location.AmapClient.searchLocation ⟨"0", "INVALID_USER_KEY", none⟩
        = Except.error "Failed to search location" ∧
      "Failed to search location" ≠ "Amap API error: " ++ "INVALID_USER_KEY" :=
  ⟨rfl, by decide⟩

/-- C6 (amended): on every response whose `status` is not `"1"`, each
Amap operation errors instead of returning; the `locationService.ts`
client's error carries the response's `info` message, while the
`location.ts` client rethrows a generic constant message. -/
theorem amap_nonsuccess_status_errors :
    ∀ (r1 r2 : LocationService.AmapSearchResponse)
      (r3 : LocationService.AmapRegeoResponse),
      r1.status ≠ "1" → r2.status ≠ "1" → r3.status ≠ "1" →
      LocationService.AmapClient.searchLocation r1
          = Except.error ("Amap API error: " ++ r1.info) ∧
      LocationService.AmapClient.searchNearby r2
          = Except.error ("Amap API error: " ++ r2.info) ∧
      LocationService.AmapClient.reverseGeocode r3
          = Except.error ("Amap API error: " ++ r3.info) ∧
      Location.AmapClient.searchLocation r1
          = Except.error "Failed to search location" ∧
      Location.AmapClient.searchNearby r2
          = Except.error "Failed to search nearby locations" ∧
      Location.AmapClient.reverseGeocode r3
          = Except.error "Failed to reverse geocode" := by
  intro r1 r2 r3 h1 h2 h3
  refine ⟨?_, ?_, ?_, ?_, ?_, ?_⟩
  · simp [LocationService.AmapClient.searchLocation, h1]
  · simp [LocationService.AmapClient.searchNearby, h2]
  · simp [LocationService.AmapClient.reverseGeocode, h3]
  · simp [Location.AmapClient.searchLocation, h1]
  · simp [Location.AmapClient.searchNearby, h2]
  · simp [Location.AmapClient.reverseGeocode, Location.reverseGeocodeBody, h3]

/-- Witness for C6 at concrete non-success responses. -/
theorem amap_nonsuccess_status_errors_witness :
    LocationService.AmapClient.searchLocation ⟨"0", "DAILY_QUERY_OVER_LIMIT", none⟩
        = Except.error ("Amap API error: " ++ "DAILY_QUERY_OVER_LIMIT") ∧
      LocationService.AmapClient.searchNearby ⟨"INVALID", "INVALID_PARAMS", some []⟩
        = Except.error ("Amap API error: " ++ "INVALID_PARAMS") ∧
      LocationService.AmapClient.reverseGeocode ⟨"0", "SERVICE_NOT_AVAILABLE", none⟩
        = Except.error ("Amap API error: " ++ "SERVICE_NOT_AVAILABLE") ∧
      Location.AmapClient.searchLocation ⟨"0", "DAILY_QUERY_OVER_LIMIT", none⟩
        = Except.error "Failed to search location" ∧
      Location.AmapClient.searchNearby ⟨"INVALID", "INVALID_PARAMS", some []⟩
        = Except.error "Failed to search nearby locations" ∧
      Location.AmapClient.reverseGeocode ⟨"0", "SERVICE_NOT_AVAILABLE", none⟩
        = Except.error "Failed to reverse geocode" :=
  amap_nonsuccess_status_errors
    ⟨"0", "DAILY_QUERY_OVER_LIMIT", none⟩
    ⟨"INVALID", "INVALID_PARAMS", some []⟩
    ⟨"0", "SERVICE_NOT_AVAILABLE", none⟩
    (by decide) (by decide) (by decide)

/-- C3: for every point with `lon < 72.004` or `lon > 137.8347` or
`lat < 0.8293` or `lat > 55.8271`, `wgs84ToGcj02` returns the input pair
unchanged — the transform is the identity outside the China bounding
box. -/
theorem wgs84ToGcj02_identity_outside_china :
    ∀ lat lon : ℝ,
      (lon < 72.004 ∨ lon > 137.8347 ∨ lat < 0.8293 ∨ lat > 55.8271) →
      MapService.wgs84ToGcj02 lat lon = (lat, lon) := by
  intro lat lon h
  have h' : MapService.outOfChina lat lon := h
  simp [MapService.wgs84ToGcj02, h']

/-- Witness for C3 at the concrete point (0, 0). -/
theorem wgs84ToGcj02_identity_outside_china_witness :
    (0 : ℝ) < 72.004 ∧ MapService.wgs84ToGcj02 0 0 = (0, 0) :=
  ⟨by norm_num, wgs84ToGcj02_identity_outside_china 0 0 (Or.inl (by norm_num))⟩

/-- C10: the strict `outOfChina` test inside `wgs84ToGcj02` holds
exactly when the inclusive `isInsideChina` test fails (both in
`MapService.ts` over the reals and, via the cast, for the rational
`isInsideChina` of `locationService.ts`), so the two boundary
conventions agree and the correction branch of `wgs84ToGcj02` runs on
precisely the points classified as inside, boundary included. -/
theorem outOfChina_iff_not_isInsideChina :
    (∀ lat lon : ℝ,
      MapService.outOfChina lat lon ↔ ¬ MapService.isInsideChina lat lon) ∧
    (∀ lat lon : ℚ,
      LocationService.isInsideChina lat lon = true
        ↔ MapService.isInsideChina (lat : ℝ) (lon : ℝ)) ∧
    (∀ lat lon : ℝ, ¬ MapService.outOfChina lat lon →
      MapService.wgs84ToGcj02 lat lon = MapService.gcj02Transform lat lon) := by
  refine ⟨?_, ?_, ?_⟩
  · intro lat lon
    unfold MapService.outOfChina MapService.isInsideChina
    constructor
    · rintro (h | h | h | h) ⟨h1, h2, h3, h4⟩ <;> linarith
    · intro h
      by_contra hc
      push_neg at hc
      exact h ⟨hc.1, hc.2.1, hc.2.2.1, hc.2.2.2⟩
  · intro lat lon
    simp only [LocationService.isInsideChina, MapService.isInsideChina,
      Bool.and_eq_true, decide_eq_true_eq]
    have toR : ∀ p q : ℚ, p ≤ q → ((p : ℚ) : ℝ) ≤ ((q : ℚ) : ℝ) :=
      fun p q h => Rat.cast_le.mpr h
    have toQ : ∀ p q : ℚ, ((p : ℚ) : ℝ) ≤ ((q : ℚ) : ℝ) → p ≤ q :=
      fun p q h => Rat.cast_le.mp h
    constructor
    · rintro ⟨⟨⟨h1, h2⟩, h3⟩, h4⟩
      refine ⟨?_, ?_, ?_, ?_⟩
      · have := toR _ _ h1
        push_cast at this
        exact this
      · have := toR _ _ h2
        push_cast at this
        exact this
      · have := toR _ _ h3
        push_cast at this
        exact this
      · have := toR _ _ h4
        push_cast at this
        exact this
    · rintro ⟨h1, h2, h3, h4⟩
      refine ⟨⟨⟨?_, ?_⟩, ?_⟩, ?_⟩
      · exact toQ _ _ (by push_cast; exact h1)
      · exact toQ _ _ (by push_cast; exact h2)
      · exact toQ _ _ (by push_cast; exact h3)
      · exact toQ _ _ (by push_cast; exact h4)
  · intro lat lon h
    simp [MapService.wgs84ToGcj02, h]

/-- Witness for C10 at the boundary point lat = 39.9, lon = 72.004:
not out of China, so the correction branch runs. -/
theorem outOfChina_iff_not_isInsideChina_witness :
    ¬ MapService.outOfChina 39.9 72.004 ∧
      MapService.wgs84ToGcj02 39.9 72.004 = MapService.gcj02Transform 39.9 72.004 := by
  have hn : ¬ MapService.outOfChina 39.9 72.004 := by
    unfold MapService.outOfChina
    push_neg
    norm_num
  exact ⟨hn, outOfChina_iff_not_isInsideChina.2.2 39.9 72.004 hn⟩

/-- C7: the mock provider's `searchNearby` output is sorted
non-decreasing in the computed Haversine distance (the rounded meter
value `calculateDistance`) from the query point to each returned
fixture. -/
theorem mock_searchNearby_sorted_by_distance :
    ∀ (latitude longitude : ℝ) (pageSize : ℕ),
      List.Sorted (· ≤ ·)
        ((MockAmap.MockAmapClient.searchNearby latitude longitude pageSize).map
          (fun e => MockAmap.calculateDistance latitude longitude
            (e.latitude : ℝ) (e.longitude : ℝ))) := by
  intro lat lon ps
  have hs :
      ((MockAmap.MOCK_POIS.map (MockAmap.withDistance lat lon)).mergeSort
          (fun a b => a.distance ≤ b.distance)).Pairwise
        (fun a b => decide (a.distance ≤ b.distance) = true) :=
    List.sorted_mergeSort
      (fun a b c h1 h2 => by
        simp only [decide_eq_true_eq] at h1 h2 ⊢
        exact le_trans h1 h2)
      (fun a b => by
        simp only [Bool.or_eq_true, decide_eq_true_eq]
        exact Int.le_total _ _)
      (MockAmap.MOCK_POIS.map (MockAmap.withDistance lat lon))
  have hP :
      ((MockAmap.MOCK_POIS.map (MockAmap.withDistance lat lon)).mergeSort
          (fun a b => a.distance ≤ b.distance)).Pairwise
        (fun a b => a.distance ≤ b.distance) :=
    hs.imp (fun h => by simpa using h)
  have key : ∀ e ∈ (MockAmap.MOCK_POIS.map (MockAmap.withDistance lat lon)).mergeSort
      (fun a b => a.distance ≤ b.distance),
      e.distance = MockAmap.calculateDistance lat lon (e.latitude : ℝ) (e.longitude : ℝ) := by
    intro e he
    rw [List.mem_mergeSort] at he
    obtain ⟨poi, hpoi, rfl⟩ := List.mem_map.mp he
    rfl
  have htake := hP.sublist (List.take_sublist ps _)
  simp only [MockAmap.MockAmapClient.searchNearby]
  exact List.pairwise_map.mpr (htake.imp_of_mem (fun ha hb hab => by
    rw [← key _ (List.mem_of_mem_take ha), ← key _ (List.mem_of_mem_take hb)]
    exact hab))

/-- Counterexample for C8: with pageSize 0 the mock `searchLocation`
returns the empty list (the code slices to `pageSize` entries), so the
claimed unconditional non-emptiness fails. -/
theorem mock_searchLocation_empty_at_pageSize_zero :
    MockAmap.MockAmapClient.searchLocation "天安门" 0 = [] := by
  simp [MockAmap.MockAmapClient.searchLocation]

/-- C8 (amended): for every keyword and every pageSize of at least 1,
the mock `searchLocation` returns a non-empty list (substring matches
over name/address/formattedAddress, falling back to the first five
fixtures), and `searchLocation "天安门"` returns a result whose name
contains "天安门". -/
theorem mock_searchLocation_nonempty_pos_pageSize :
    ∀ (keyword : String) (pageSize : ℕ), 1 ≤ pageSize →
      MockAmap.MockAmapClient.searchLocation keyword pageSize ≠ [] ∧
      ∃ e ∈ MockAmap.MockAmapClient.searchLocation "天安门" pageSize,
        MockAmap.jsIncludes e.name "天安门" = true := by
  intro kw ps hps
  constructor
  · simp only [MockAmap.MockAmapClient.searchLocation]
    intro hnil
    rw [List.map_eq_nil_iff, List.take_eq_nil_iff] at hnil
    rcases hnil with h | h
    · omega
    · revert h
      split
      · next hc =>
        intro h
        rw [h] at hc
        simp at hc
      · intro h
        exact absurd h (by decide)
  · have hfil : MockAmap.MOCK_POIS.filter (fun poi =>
        MockAmap.jsIncludes poi.name "天安门" ||
          MockAmap.jsIncludes poi.address "天安门" ||
          MockAmap.jsIncludes poi.formattedAddress "天安门")
        = MockAmap.MOCK_POIS.take 1 := by rfl
    simp only [MockAmap.MockAmapClient.searchLocation, hfil]
    rw [if_pos (by decide), List.take_take, Nat.min_eq_right hps]
    have h1 : MockAmap.MOCK_POIS.take 1 = [⟨"B000A7BD6J", "天安门广场", "东城区西长安街",
        "北京市东城区西长安街天安门广场", 39.908823, 116.397470⟩] := by rfl
    rw [h1, List.map_cons, List.map_nil]
    refine ⟨_, List.mem_singleton.mpr rfl, ?_⟩
    decide

/-- Witness for C8 at the concrete keyword "故宫" and pageSize 1. -/
theorem mock_searchLocation_nonempty_pos_pageSize_witness :
    MockAmap.MockAmapClient.searchLocation "故宫" 1 ≠ [] ∧
      ∃ e ∈ MockAmap.MockAmapClient.searchLocation "天安门" 1,
        MockAmap.jsIncludes e.name "天安门" = true :=
  mock_searchLocation_nonempty_pos_pageSize "故宫" 1 (by decide)

end GeoBlinko
